import Mathlib

/-!
Shallow embedding of the Modular AI Receptionist Framework's orchestration
core: the data model, the performance monitor (performance_monitor.py), the
module registry (module_manager.py) and the audio pipeline state machine
(core_engine.py), followed by theorems settling the spec claims.

Numeric metric values and thresholds (Python floats) are modelled as
rationals.  Wall-clock values (session_start, timestamps, session_duration)
are omitted: no verified property depends on them.  Python exceptions raised
by plugin code are modelled with an explicit `Except` channel.
-/

/-- Python exception payload (the message string). -/
abbrev Exn : Type := String

/-- Modelled from the spec: AudioFrame, a raw audio payload (byte sequence)
plus a sample rate (data_models.py is not part of the sources). -/
structure AudioFrame where
  data : List Nat
  sample_rate : Nat
deriving DecidableEq, Repr

/-- Modelled from the spec: TranscribedText, text plus confidence. -/
structure TranscribedText where
  text : String
  confidence : ℚ
deriving DecidableEq, Repr

/-- Modelled from the spec: IntentResult, raw text, intent label, confidence
and an ordered sequence of (name, value) entity pairs. -/
structure IntentResult where
  raw_text : String
  intent : String
  confidence : ℚ
  entities : List (String × String)
deriving DecidableEq, Repr

/-- Modelled from the spec: DialogueResponse, the terminal artifact of one
pipeline run. -/
structure DialogueResponse where
  text : String
  action : Option String
  module : String
  metadata : Option (List (String × String))
deriving DecidableEq, Repr

/-- Modelled from the spec: the SystemState enum of data_models.py. -/
inductive SystemState where
  | IDLE
  | LISTENING
  | PROCESSING
  | RESPONDING
  | ERROR
deriving DecidableEq, Repr

/-- Modelled from the spec: PerformanceMetric (component, metric_name,
value); the timestamp is implicit insertion order. -/
structure PerformanceMetric where
  component : String
  metric_name : String
  value : ℚ
deriving DecidableEq, Repr

/-! Insertion-ordered string-keyed dictionaries (Python `dict`), as
association lists. -/

/-- Dictionary lookup: first binding of the key. -/
def lookupKey {α : Type} : List (String × α) → String → Option α
  | [], _ => none
  | (k', v) :: rest, k => if k' = k then some v else lookupKey rest k

/-- Python `key in dict`. -/
def containsKey {α : Type} (l : List (String × α)) (k : String) : Bool :=
  (lookupKey l k).isSome

/-- Python `dict[key] = value`: overwrite in place, else append. -/
def dictInsert {α : Type} : List (String × α) → String → α → List (String × α)
  | [], k, v => [(k, v)]
  | (k', v') :: rest, k, v =>
      if k' = k then (k', v) :: rest else (k', v') :: dictInsert rest k v

/-! ## Performance Monitor (performance_monitor.py) -/

/-- State of PerformanceMonitor: the append-only metric log plus the
interaction and error counters (session_start omitted: wall clock). -/
structure PerformanceMonitor where
  metrics : List PerformanceMetric
  interaction_count : Nat
  error_count : Nat
deriving DecidableEq, Repr

/-- PerformanceMonitor.__init__. -/
def initPerformanceMonitor : PerformanceMonitor :=
  { metrics := [], interaction_count := 0, error_count := 0 }

/-- PerformanceMonitor.record_metric: appends one entry. -/
def record_metric (pm : PerformanceMonitor) (component metric_name : String)
    (value : ℚ) : PerformanceMonitor :=
  { pm with metrics := pm.metrics ++ [⟨component, metric_name, value⟩] }

/-- PerformanceMonitor.record_interaction: always increments the interaction
counter; increments the error counter when success is false. -/
def record_interaction (pm : PerformanceMonitor) (success : Bool) : PerformanceMonitor :=
  let pm' := { pm with interaction_count := pm.interaction_count + 1 }
  if !success then { pm' with error_count := pm'.error_count + 1 } else pm'

/-- The grouping key used by get_metrics_summary. -/
def metricKey (m : PerformanceMetric) : String :=
  m.component ++ "." ++ m.metric_name

/-- One step of the grouping loop of get_metrics_summary: append the value
to the existing group for the key, or start a new group at the end. -/
def addToGroup : List (String × List ℚ) → String → ℚ → List (String × List ℚ)
  | [], k, v => [(k, [v])]
  | (k', vs) :: rest, k, v =>
      if k' = k then (k', vs ++ [v]) :: rest
      else (k', vs) :: addToGroup rest k v

/-- The grouping loop of get_metrics_summary over the metric log. -/
def groupMetrics (ms : List PerformanceMetric) : List (String × List ℚ) :=
  ms.foldl (fun acc m => addToGroup acc (metricKey m) m.value) []

/-- The values of the metric log that fall into group key k (model of
PerformanceMonitor.get_metric_history up to the key encoding). -/
def valuesFor (ms : List PerformanceMetric) (k : String) : List ℚ :=
  (ms.filter fun m => metricKey m == k).map PerformanceMetric.value

/-- Minimum of a value list (groups are always nonempty; the empty-list
default 0 is never reached from the code paths). -/
def listMin : List ℚ → ℚ
  | [] => 0
  | x :: xs => xs.foldl min x

/-- Maximum of a value list (same remark as for listMin). -/
def listMax : List ℚ → ℚ
  | [] => 0
  | x :: xs => xs.foldl max x

/-- The per-group statistics record of get_metrics_summary. -/
structure MetricStats where
  count : Nat
  average : ℚ
  min : ℚ
  max : ℚ
  total : ℚ
deriving DecidableEq, Repr

/-- The statistics computed for one group of values. -/
def mkStats (values : List ℚ) : MetricStats :=
  { count := values.length,
    average := values.sum / (values.length : ℚ),
    min := listMin values,
    max := listMax values,
    total := values.sum }

/-- The heterogeneous dictionary returned by get_metrics_summary; a field is
`none` exactly when the corresponding key is absent from the Python dict
(the two branches of the method emit different key sets).  The
session-duration entry is omitted (wall clock). -/
structure MetricsSummary where
  message : Option String := none
  interaction_count : Option Nat := none
  error_count : Option Nat := none
  total_metrics : Option Nat := none
  total_interactions : Option Nat := none
  total_errors : Option Nat := none
  error_rate : Option ℚ := none
  statistics : Option (List (String × MetricStats)) := none
  recent_metrics : Option (List PerformanceMetric) := none
deriving DecidableEq, Repr

/-- PerformanceMonitor.get_metrics_summary. -/
def get_metrics_summary (pm : PerformanceMonitor) : MetricsSummary :=
  if pm.metrics = [] then
    { message := some "No metrics recorded",
      interaction_count := some pm.interaction_count,
      error_count := some pm.error_count }
  else
    let grouped := groupMetrics pm.metrics
    let statistics := grouped.map fun p => (p.1, mkStats p.2)
    { total_metrics := some pm.metrics.length,
      total_interactions := some pm.interaction_count,
      total_errors := some pm.error_count,
      error_rate := some (if 0 < pm.interaction_count then
        (pm.error_count : ℚ) / (pm.interaction_count : ℚ) else 0),
      statistics := some statistics,
      recent_metrics := some (pm.metrics.drop (pm.metrics.length - 10)) }

/-- Recommendation emitted on a high error rate. -/
def highErrorRec : String := "High error rate detected: Review module implementations"

/-- Recommendation emitted on low intent-recognition confidence. -/
def lowIntentRec : String := "Low intent recognition confidence: Consider retraining NLU model"

/-- Recommendation emitted on low STT confidence. -/
def lowSttRec : String := "Low STT confidence: Optimize speech-to-text settings"

/-- Recommendation emitted when no threshold trips. -/
def performingWellRec : String := "System performance is good. Continue monitoring."

/-- The report returned by get_feedback_report (timestamp and
session_duration omitted: wall clock). -/
structure FeedbackReport where
  total_interactions : Option Nat
  error_rate : Option ℚ
  performance_data : MetricsSummary
  recommendations : List String
deriving DecidableEq, Repr

/-- PerformanceMonitor.get_feedback_report.  The error-rate check reads the
summary with `summary.get("error_rate", 0)` and the confidence checks read
`summary.get("statistics", \x7b\x7d)`, exactly as the source does. -/
def get_feedback_report (pm : PerformanceMonitor) : FeedbackReport :=
  let summary := get_metrics_summary pm
  let recs1 : List String :=
    if (summary.error_rate.getD 0) > 1 / 10 then [highErrorRec] else []
  let recs2 : List String :=
    match lookupKey (summary.statistics.getD []) "intent_recognizer.confidence" with
    | some st => if st.average < 7 / 10 then recs1 ++ [lowIntentRec] else recs1
    | none => recs1
  let recs3 : List String :=
    match lookupKey (summary.statistics.getD []) "stt.confidence" with
    | some st => if st.average < 8 / 10 then recs2 ++ [lowSttRec] else recs2
    | none => recs2
  let recommendations := if recs3 = [] then [performingWellRec] else recs3
  { total_interactions := summary.total_interactions,
    error_rate := summary.error_rate,
    performance_data := summary,
    recommendations := recommendations }

/-! ## Capability contracts (interfaces.py)

Plugin implementations are modelled as records of deterministic functions.
A method that the orchestration code guards with try/except is given an
`Except Exn` result channel so a raised Python exception is representable;
`initialize()` is modelled by the field `init` (the source name is not
available in this development). -/

/-- ActivationEngine contract: initialize and detect (cleanup omitted: not
referenced by any verified property). -/
structure ActivationEngine where
  init : Except Exn Bool
  detect : AudioFrame → Except Exn Bool

/-- SpeechToTextProcessor contract. -/
structure SpeechToTextProcessor where
  init : Except Exn Bool
  transcribe : List Nat → Nat → Except Exn TranscribedText

/-- IntentRecognizer contract. -/
structure IntentRecognizer where
  init : Except Exn Bool
  recognize : String → Except Exn IntentResult

/-- ResponseGenerator contract. -/
structure ResponseGenerator where
  init : Except Exn Bool
  generate : IntentResult → Except Exn DialogueResponse

/-- DomainModule contract.  supports_intent, get_domain_name and
get_supported_intents are pure per the declared contract shapes; handle,
init and cleanup carry the exception channel. -/
structure DomainModule where
  init : Except Exn Bool
  handle : IntentResult → Except Exn DialogueResponse
  supports_intent : String → Bool
  get_domain_name : String
  get_supported_intents : List String
  cleanup : Except Exn Unit

/-! ## Module Manager (module_manager.py) -/

/-- State of ModuleManager: the insertion-ordered registry dict plus the
optional active-module name. -/
structure ModuleManager where
  modules : List (String × DomainModule)
  active_module : Option String

/-- ModuleManager.__init__. -/
def initModuleManager : ModuleManager :=
  { modules := [], active_module := none }

/-- ModuleManager.register_module: calls module.initialize(); on True stores
the module under domain_name and returns True; on False or on a raised
exception returns False with the manager unchanged. -/
def register_module (mm : ModuleManager) (domain_name : String)
    (module : DomainModule) : ModuleManager × Bool :=
  match module.init with
  | .ok true => ({ mm with modules := dictInsert mm.modules domain_name module }, true)
  | .ok false => (mm, false)
  | .error _ => (mm, false)

/-- ModuleManager.switch_module: fails when domain_name is not registered,
otherwise makes it the active module. -/
def switch_module (mm : ModuleManager) (domain_name : String) : ModuleManager × Bool :=
  if containsKey mm.modules domain_name then
    ({ mm with active_module := some domain_name }, true)
  else
    (mm, false)

/-- ModuleManager.get_active_module: the Python guard is
`if self.active_module and self.active_module in self.modules`, where an
empty string is falsy. -/
def get_active_module (mm : ModuleManager) : Option DomainModule :=
  match mm.active_module with
  | some s =>
      if (!(s == "")) && containsKey mm.modules s then lookupKey mm.modules s
      else none
  | none => none

/-- ModuleManager.process_with_module: dispatch an intent to the active
module when it exists and supports the intent; otherwise yield nothing.
The method only reads the manager, so no updated manager is returned. -/
def process_with_module (mm : ModuleManager) (intent_result : IntentResult) :
    Except Exn (Option DialogueResponse) :=
  match get_active_module mm with
  | some module =>
      if module.supports_intent intent_result.intent then
        match module.handle intent_result with
        | .ok r => .ok (some r)
        | .error e => .error e
      else .ok none
  | none => .ok none

/-- ModuleManager.cleanup_all: calls cleanup on every module (results are
discarded; individual failures are caught and logged), then empties the
registry and clears the active pointer. -/
def cleanup_all (mm : ModuleManager) : ModuleManager :=
  let _results := mm.modules.map fun p => p.2.cleanup
  { modules := [], active_module := none }

/-! ## Orchestration Core (core_engine.py) -/

/-- State of ReceptionistCore (api_gateway omitted: not referenced by any
verified property). -/
structure ReceptionistCore where
  state : SystemState
  activation_engine : Option ActivationEngine
  stt_processor : Option SpeechToTextProcessor
  intent_recognizer : Option IntentRecognizer
  response_generator : Option ResponseGenerator
  module_manager : ModuleManager
  performance_monitor : PerformanceMonitor
  running : Bool

/-- ReceptionistCore.__init__. -/
def initReceptionistCore : ReceptionistCore :=
  { state := SystemState.IDLE,
    activation_engine := none,
    stt_processor := none,
    intent_recognizer := none,
    response_generator := none,
    module_manager := initModuleManager,
    performance_monitor := initPerformanceMonitor,
    running := false }

/-- ReceptionistCore.set_activation_engine: install the engine only when its
initialize() returns True; a raised exception is caught and reported as
False.  The pure return type shows no exception escapes. -/
def set_activation_engine (core : ReceptionistCore) (engine : ActivationEngine) :
    ReceptionistCore × Bool :=
  match engine.init with
  | .ok true => ({ core with activation_engine := some engine }, true)
  | .ok false => (core, false)
  | .error _ => (core, false)

/-- ReceptionistCore.set_stt_processor. -/
def set_stt_processor (core : ReceptionistCore) (processor : SpeechToTextProcessor) :
    ReceptionistCore × Bool :=
  match processor.init with
  | .ok true => ({ core with stt_processor := some processor }, true)
  | .ok false => (core, false)
  | .error _ => (core, false)

/-- ReceptionistCore.set_intent_recognizer. -/
def set_intent_recognizer (core : ReceptionistCore) (recognizer : IntentRecognizer) :
    ReceptionistCore × Bool :=
  match recognizer.init with
  | .ok true => ({ core with intent_recognizer := some recognizer }, true)
  | .ok false => (core, false)
  | .error _ => (core, false)

/-- ReceptionistCore.set_response_generator. -/
def set_response_generator (core : ReceptionistCore) (generator : ResponseGenerator) :
    ReceptionistCore × Bool :=
  match generator.init with
  | .ok true => ({ core with response_generator := some generator }, true)
  | .ok false => (core, false)
  | .error _ => (core, false)

/-- Ghost observation log of one pipeline invocation: every assignment to
self.state and every plugin-stage call, in program order. -/
inductive PipelineEvent where
  | enteredState (s : SystemState)
  | calledDetect
  | calledTranscribe
  | calledRecognize
  | calledDispatch
  | calledGenerate
deriving DecidableEq, Repr

/-- Result of the try-block body of process_audio: on a raised exception the
error branch carries the state mutations already performed. -/
def BodyResult : Type :=
  Except (Exn × ReceptionistCore × List PipelineEvent)
         (Option DialogueResponse × ReceptionistCore × List PipelineEvent)

/-- Lines 197-204 of core_engine.py: record the interaction outcome and
return the response (or None). -/
def finishResponse (c : ReceptionistCore) (response : Option DialogueResponse)
    (tr : List PipelineEvent) : BodyResult :=
  match response with
  | some r =>
      .ok (some r,
        { c with performance_monitor := record_interaction c.performance_monitor true }, tr)
  | none =>
      .ok (none,
        { c with performance_monitor := record_interaction c.performance_monitor false }, tr)

/-- Step 4 of process_audio (lines 187-204): response generation via the
module registry, falling back to the generic generator. -/
def runRespond (c : ReceptionistCore) (intent_result : IntentResult)
    (tr : List PipelineEvent) : BodyResult :=
  let c1 := { c with state := SystemState.RESPONDING }
  let tr1 := tr ++ [PipelineEvent.enteredState SystemState.RESPONDING,
                    PipelineEvent.calledDispatch]
  match process_with_module c1.module_manager intent_result with
  | .error e => .error (e, c1, tr1)
  | .ok response =>
      match response, c1.response_generator with
      | none, some gen =>
          let tr2 := tr1 ++ [PipelineEvent.calledGenerate]
          match gen.generate intent_result with
          | .error e => .error (e, c1, tr2)
          | .ok r => finishResponse c1 (some r) tr2
      | none, none => finishResponse c1 none tr1
      | some r, _ => finishResponse c1 (some r) tr1

/-- Step 3 of process_audio (lines 176-185): intent recognition. -/
def runIntent (c : ReceptionistCore) (transcribed : TranscribedText)
    (tr : List PipelineEvent) : BodyResult :=
  match c.intent_recognizer with
  | none =>
      let c1 := { c with state := SystemState.ERROR }
      let c2 := { c1 with
        performance_monitor := record_interaction c1.performance_monitor false }
      .ok (none, c2, tr ++ [PipelineEvent.enteredState SystemState.ERROR])
  | some recognizer =>
      let tr1 := tr ++ [PipelineEvent.calledRecognize]
      match recognizer.recognize transcribed.text with
      | .error e => .error (e, c, tr1)
      | .ok intent_result =>
          let pm1 := record_metric c.performance_monitor "intent_recognizer"
            "confidence" intent_result.confidence
          let c1 := { c with performance_monitor := pm1 }
          runRespond c1 intent_result tr1

/-- Step 2 of process_audio (lines 164-174): speech-to-text conversion. -/
def runAfterActivation (c : ReceptionistCore) (audio_frame : AudioFrame)
    (tr : List PipelineEvent) : BodyResult :=
  match c.stt_processor with
  | none =>
      let c1 := { c with state := SystemState.ERROR }
      let c2 := { c1 with
        performance_monitor := record_interaction c1.performance_monitor false }
      .ok (none, c2, tr ++ [PipelineEvent.enteredState SystemState.ERROR])
  | some stt =>
      let c1 := { c with state := SystemState.PROCESSING }
      let tr1 := tr ++ [PipelineEvent.enteredState SystemState.PROCESSING,
                        PipelineEvent.calledTranscribe]
      match stt.transcribe audio_frame.data audio_frame.sample_rate with
      | .error e => .error (e, c1, tr1)
      | .ok transcribed =>
          let pm1 := record_metric c1.performance_monitor "stt" "confidence"
            transcribed.confidence
          let c2 := { c1 with performance_monitor := pm1 }
          runIntent c2 transcribed tr1

/-- The try-block body of process_audio (lines 153-204), starting with the
transition to LISTENING and the optional wake-word step. -/
def runBody (core : ReceptionistCore) (audio_frame : AudioFrame) : BodyResult :=
  let c0 := { core with state := SystemState.LISTENING }
  let tr0 := [PipelineEvent.enteredState SystemState.LISTENING]
  match core.activation_engine with
  | some engine =>
      let tr1 := tr0 ++ [PipelineEvent.calledDetect]
      match engine.detect audio_frame with
      | .error e => .error (e, c0, tr1)
      | .ok false => .ok (none, c0, tr1)
      | .ok true => runAfterActivation c0 audio_frame tr1
  | none => runAfterActivation c0 audio_frame tr0

/-- ReceptionistCore.process_audio: the body wrapped in the except-branch
(lines 206-210) and the finally-branch (lines 212-214).  Returns the
response, the updated core and the invocation's event log. -/
def process_audio (core : ReceptionistCore) (audio_frame : AudioFrame) :
    Option DialogueResponse × ReceptionistCore × List PipelineEvent :=
  match runBody core audio_frame with
  | .ok (response, c, tr) =>
      (response, { c with state := SystemState.IDLE },
        tr ++ [PipelineEvent.enteredState SystemState.IDLE])
  | .error (_, c, tr) =>
      let c1 := { c with state := SystemState.ERROR }
      let c2 := { c1 with
        performance_monitor := record_interaction c1.performance_monitor false }
      (none, { c2 with state := SystemState.IDLE },
        tr ++ [PipelineEvent.enteredState SystemState.ERROR,
               PipelineEvent.enteredState SystemState.IDLE])

/-! ## Definitions supporting the claims, and concrete instances used by
the witnesses -/

/-- The registry invariant of the claims: the active-module pointer is
either unset or names a currently registered module. -/
def activeRegistered (mm : ModuleManager) : Prop :=
  ∀ s, mm.active_module = some s → containsKey mm.modules s = true

/-- A concrete audio frame. -/
def sampleFrame : AudioFrame := { data := [1, 2, 3], sample_rate := 16000 }

/-- An activation engine that always detects the wake word. -/
def okEngine : ActivationEngine := { init := .ok true, detect := fun _ => .ok true }

/-- An activation engine that never detects the wake word. -/
def noDetectEngine : ActivationEngine := { init := .ok true, detect := fun _ => .ok false }

/-- An activation engine whose initialize raises. -/
def failingEngine : ActivationEngine :=
  { init := .error "boom", detect := fun _ => .error "boom" }

/-- An activation engine whose detect raises. -/
def detectRaisesEngine : ActivationEngine :=
  { init := .ok true, detect := fun _ => .error "boom" }

/-- A concrete transcription result. -/
def sampleTranscribed : TranscribedText := { text := "hello", confidence := 9 / 10 }

/-- A transcription stage returning sampleTranscribed. -/
def sampleStt : SpeechToTextProcessor :=
  { init := .ok true, transcribe := fun _ _ => .ok sampleTranscribed }

/-- A transcription stage whose initialize raises. -/
def failingStt : SpeechToTextProcessor :=
  { init := .error "boom", transcribe := fun _ _ => .error "boom" }

/-- A concrete intent result. -/
def sampleIntent : IntentResult :=
  { raw_text := "hello", intent := "greet", confidence := 1, entities := [] }

/-- An intent recognizer recognizing every text as sampleIntent. -/
def sampleRecognizer : IntentRecognizer :=
  { init := .ok true, recognize := fun _ => .ok sampleIntent }

/-- An intent recognizer whose initialize raises. -/
def failingRecognizer : IntentRecognizer :=
  { init := .error "boom", recognize := fun _ => .error "boom" }

/-- A concrete response attributed to the generic generator. -/
def genericResponse : DialogueResponse :=
  { text := "generic reply", action := none, module := "generator", metadata := none }

/-- A fallback generator returning genericResponse. -/
def sampleGenerator : ResponseGenerator :=
  { init := .ok true, generate := fun _ => .ok genericResponse }

/-- A fallback generator whose initialize raises. -/
def failingGenerator : ResponseGenerator :=
  { init := .error "boom", generate := fun _ => .error "boom" }

/-- A concrete response attributed to the sample domain module. -/
def sampleResponse : DialogueResponse :=
  { text := "welcome", action := none, module := "sample", metadata := none }

/-- A domain module supporting every intent. -/
def sampleModule : DomainModule :=
  { init := .ok true, handle := fun _ => .ok sampleResponse,
    supports_intent := fun _ => true, get_domain_name := "sample",
    get_supported_intents := ["greet"], cleanup := .ok () }

/-- A manager with sampleModule registered and active. -/
def sampleManager : ModuleManager :=
  { modules := [("sample", sampleModule)], active_module := some "sample" }

/-- A fully configured core: transcription, intent recognition, an active
domain module and a fallback generator (no activation engine). -/
def sampleCore : ReceptionistCore :=
  { initReceptionistCore with
      stt_processor := some sampleStt,
      intent_recognizer := some sampleRecognizer,
      response_generator := some sampleGenerator,
      module_manager := sampleManager }

/-- The core used by the missing-transcription witness: activation engine
configured and detecting, no transcription stage. -/
def coreMissingStt : ReceptionistCore :=
  { initReceptionistCore with activation_engine := some okEngine }

/-! ## Lemmas about dictionaries and metric grouping -/

theorem lookupKey_dictInsert {α : Type} (l : List (String × α)) (k k' : String) (v : α) :
    lookupKey (dictInsert l k v) k' = if k = k' then some v else lookupKey l k' := by
  induction l with
  | nil =>
      simp only [dictInsert, lookupKey]
  | cons p rest ih =>
      obtain ⟨k₁, v₁⟩ := p
      by_cases h1 : k₁ = k
      · subst h1
        by_cases h2 : k₁ = k'
        · subst h2
          simp [dictInsert, lookupKey]
        · simp [dictInsert, lookupKey, h2]
      · by_cases h2 : k₁ = k'
        · subst h2
          have hk : ¬k = k₁ := fun h => h1 h.symm
          simp [dictInsert, lookupKey, h1, hk]
        · simp [dictInsert, lookupKey, h1, h2, ih]

theorem valuesFor_nil (k : String) : valuesFor [] k = [] := rfl

theorem valuesFor_cons (m : PerformanceMetric) (ms : List PerformanceMetric) (k : String) :
    valuesFor (m :: ms) k =
      if metricKey m = k then m.value :: valuesFor ms k else valuesFor ms k := by
  by_cases h : metricKey m = k <;> simp [valuesFor, h]

theorem lookupKey_addToGroup (l : List (String × List ℚ)) (k k' : String) (v : ℚ) :
    lookupKey (addToGroup l k v) k' =
      if k = k' then some ((lookupKey l k).getD [] ++ [v]) else lookupKey l k' := by
  induction l with
  | nil =>
      by_cases h : k = k' <;> simp [addToGroup, lookupKey, h]
  | cons p rest ih =>
      obtain ⟨k₁, vs₁⟩ := p
      by_cases h1 : k₁ = k
      · subst h1
        by_cases h2 : k₁ = k'
        · subst h2
          simp [addToGroup, lookupKey]
        · simp [addToGroup, lookupKey, h2]
      · by_cases h2 : k = k'
        · subst h2
          simp [addToGroup, lookupKey, h1, ih]
        · simp [addToGroup, lookupKey, h1, h2, ih]

theorem lookupKey_foldl_group (ms : List PerformanceMetric) (k : String) :
    ∀ acc : List (String × List ℚ),
      lookupKey (ms.foldl (fun a m => addToGroup a (metricKey m) m.value) acc) k =
        if lookupKey acc k = none ∧ valuesFor ms k = [] then none
        else some ((lookupKey acc k).getD [] ++ valuesFor ms k) := by
  induction ms with
  | nil =>
      intro acc
      cases h : lookupKey acc k <;> simp [valuesFor, h]
  | cons m ms ih =>
      intro acc
      rw [List.foldl_cons, ih, lookupKey_addToGroup, valuesFor_cons]
      by_cases hk : metricKey m = k
      · cases h : lookupKey acc k <;> simp [hk, h]
      · have hk' : ¬metricKey m = k := hk
        simp [hk']

theorem lookupKey_groupMetrics (ms : List PerformanceMetric) (k : String) :
    lookupKey (groupMetrics ms) k =
      if valuesFor ms k = [] then none else some (valuesFor ms k) := by
  have h := lookupKey_foldl_group ms k []
  simpa [groupMetrics, lookupKey] using h

theorem lookupKey_map_stats (l : List (String × List ℚ)) (k : String) :
    lookupKey (l.map fun p => (p.1, mkStats p.2)) k = (lookupKey l k).map mkStats := by
  induction l with
  | nil => simp [lookupKey]
  | cons p rest ih =>
      obtain ⟨k₁, v₁⟩ := p
      by_cases h : k₁ = k <;> simp [lookupKey, h, ih]

theorem statistics_lookup (pm : PerformanceMonitor) (k : String)
    (h : ¬pm.metrics = []) :
    lookupKey (((get_metrics_summary pm).statistics).getD []) k =
      if valuesFor pm.metrics k = [] then none
      else some (mkStats (valuesFor pm.metrics k)) := by
  simp only [get_metrics_summary, if_neg h, Option.getD_some, lookupKey_map_stats,
    lookupKey_groupMetrics]
  by_cases hv : valuesFor pm.metrics k = [] <;> simp [hv]

/-! ## Stepping lemmas for the pipeline -/

theorem record_metric_counts (pm : PerformanceMonitor) (c n : String) (v : ℚ) :
    (record_metric pm c n v).interaction_count = pm.interaction_count ∧
    (record_metric pm c n v).error_count = pm.error_count := by
  simp [record_metric]

theorem record_interaction_false_counts (pm : PerformanceMonitor) :
    (record_interaction pm false).interaction_count = pm.interaction_count + 1 ∧
    (record_interaction pm false).error_count = pm.error_count + 1 := by
  simp [record_interaction]

theorem runBody_activation_error (core : ReceptionistCore) (frame : AudioFrame)
    (engine : ActivationEngine) (e : Exn)
    (h1 : core.activation_engine = some engine)
    (h2 : engine.detect frame = .error e) :
    runBody core frame =
      .error (e, { core with state := SystemState.LISTENING },
        [PipelineEvent.enteredState SystemState.LISTENING, PipelineEvent.calledDetect]) := by
  simp [runBody, h1, h2]

theorem runBody_activation_false (core : ReceptionistCore) (frame : AudioFrame)
    (engine : ActivationEngine)
    (h1 : core.activation_engine = some engine)
    (h2 : engine.detect frame = .ok false) :
    runBody core frame =
      .ok (none, { core with state := SystemState.LISTENING },
        [PipelineEvent.enteredState SystemState.LISTENING, PipelineEvent.calledDetect]) := by
  simp [runBody, h1, h2]

theorem runBody_activation_passes (core : ReceptionistCore) (frame : AudioFrame)
    (hact : ∀ engine, core.activation_engine = some engine →
      engine.detect frame = .ok true) :
    runBody core frame =
      runAfterActivation { core with state := SystemState.LISTENING } frame
        ([PipelineEvent.enteredState SystemState.LISTENING] ++
          (match core.activation_engine with
           | some _ => [PipelineEvent.calledDetect]
           | none => [])) := by
  cases h : core.activation_engine with
  | none => simp [runBody, h]
  | some engine => simp [runBody, h, hact engine h]

theorem runAfterActivation_no_stt (c : ReceptionistCore) (frame : AudioFrame)
    (tr : List PipelineEvent) (h : c.stt_processor = none) :
    runAfterActivation c frame tr =
      .ok (none,
        { c with state := SystemState.ERROR,
                 performance_monitor := record_interaction c.performance_monitor false },
        tr ++ [PipelineEvent.enteredState SystemState.ERROR]) := by
  simp [runAfterActivation, h]

theorem runAfterActivation_stt_error (c : ReceptionistCore) (frame : AudioFrame)
    (tr : List PipelineEvent) (stt : SpeechToTextProcessor) (e : Exn)
    (h1 : c.stt_processor = some stt)
    (h2 : stt.transcribe frame.data frame.sample_rate = .error e) :
    runAfterActivation c frame tr =
      .error (e, { c with state := SystemState.PROCESSING },
        tr ++ [PipelineEvent.enteredState SystemState.PROCESSING,
               PipelineEvent.calledTranscribe]) := by
  simp [runAfterActivation, h1, h2]

theorem runAfterActivation_stt_ok (c : ReceptionistCore) (frame : AudioFrame)
    (tr : List PipelineEvent) (stt : SpeechToTextProcessor) (t : TranscribedText)
    (h1 : c.stt_processor = some stt)
    (h2 : stt.transcribe frame.data frame.sample_rate = .ok t) :
    runAfterActivation c frame tr =
      runIntent
        { c with state := SystemState.PROCESSING,
                 performance_monitor :=
                   record_metric c.performance_monitor "stt" "confidence" t.confidence }
        t
        (tr ++ [PipelineEvent.enteredState SystemState.PROCESSING,
                PipelineEvent.calledTranscribe]) := by
  simp [runAfterActivation, h1, h2]

theorem runIntent_recognize_error (c : ReceptionistCore) (t : TranscribedText)
    (tr : List PipelineEvent) (recognizer : IntentRecognizer) (e : Exn)
    (h1 : c.intent_recognizer = some recognizer)
    (h2 : recognizer.recognize t.text = .error e) :
    runIntent c t tr = .error (e, c, tr ++ [PipelineEvent.calledRecognize]) := by
  simp [runIntent, h1, h2]

theorem runIntent_recognize_ok (c : ReceptionistCore) (t : TranscribedText)
    (tr : List PipelineEvent) (recognizer : IntentRecognizer) (ir : IntentResult)
    (h1 : c.intent_recognizer = some recognizer)
    (h2 : recognizer.recognize t.text = .ok ir) :
    runIntent c t tr =
      runRespond
        { c with
            performance_monitor :=
              record_metric c.performance_monitor "intent_recognizer" "confidence" ir.confidence }
        ir (tr ++ [PipelineEvent.calledRecognize]) := by
  simp [runIntent, h1, h2]

theorem runRespond_dispatch_error (c : ReceptionistCore) (ir : IntentResult)
    (tr : List PipelineEvent) (e : Exn)
    (h : process_with_module c.module_manager ir = .error e) :
    runRespond c ir tr =
      .error (e, { c with state := SystemState.RESPONDING },
        tr ++ [PipelineEvent.enteredState SystemState.RESPONDING,
               PipelineEvent.calledDispatch]) := by
  simp [runRespond, h]

theorem runRespond_dispatch_some (c : ReceptionistCore) (ir : IntentResult)
    (tr : List PipelineEvent) (r : DialogueResponse)
    (h : process_with_module c.module_manager ir = .ok (some r)) :
    runRespond c ir tr =
      .ok (some r,
        { c with state := SystemState.RESPONDING,
                 performance_monitor := record_interaction c.performance_monitor true },
        tr ++ [PipelineEvent.enteredState SystemState.RESPONDING,
               PipelineEvent.calledDispatch]) := by
  simp [runRespond, h, finishResponse]

theorem runRespond_generate_error (c : ReceptionistCore) (ir : IntentResult)
    (tr : List PipelineEvent) (gen : ResponseGenerator) (e : Exn)
    (h1 : process_with_module c.module_manager ir = .ok none)
    (h2 : c.response_generator = some gen)
    (h3 : gen.generate ir = .error e) :
    runRespond c ir tr =
      .error (e, { c with state := SystemState.RESPONDING },
        tr ++ [PipelineEvent.enteredState SystemState.RESPONDING,
               PipelineEvent.calledDispatch, PipelineEvent.calledGenerate]) := by
  simp [runRespond, h1, h2, h3]

theorem process_audio_of_runBody_ok (core : ReceptionistCore) (frame : AudioFrame)
    (resp : Option DialogueResponse) (c : ReceptionistCore) (tr : List PipelineEvent)
    (hb : runBody core frame = .ok (resp, c, tr)) :
    process_audio core frame =
      (resp, { c with state := SystemState.IDLE },
        tr ++ [PipelineEvent.enteredState SystemState.IDLE]) := by
  simp [process_audio, hb]

theorem process_audio_of_runBody_error (core : ReceptionistCore) (frame : AudioFrame)
    (e : Exn) (c : ReceptionistCore) (tr : List PipelineEvent)
    (hb : runBody core frame = .error (e, c, tr)) :
    process_audio core frame =
      (none,
        { c with state := SystemState.IDLE,
                 performance_monitor := record_interaction c.performance_monitor false },
        tr ++ [PipelineEvent.enteredState SystemState.ERROR,
               PipelineEvent.enteredState SystemState.IDLE]) := by
  simp [process_audio, hb]

/-! ## Claim theorems -/

/-- C1 counterexample: a monitor state with an empty metric log but one
recorded failed interaction is reachable (one record_interaction call on a
fresh monitor); its summary reports interaction count 1 and error count 1,
not zero. -/
theorem summarize_empty_log_nonzero_counters :
    (record_interaction initPerformanceMonitor false).metrics = [] ∧
    (get_metrics_summary (record_interaction initPerformanceMonitor false)).interaction_count
      = some 1 ∧
    (get_metrics_summary (record_interaction initPerformanceMonitor false)).error_count
      = some 1 ∧
    ¬((get_metrics_summary (record_interaction initPerformanceMonitor false)).interaction_count
        = some 0) := by
  refine ⟨rfl, rfl, rfl, ?_⟩
  intro h
  simp [get_metrics_summary, record_interaction, initPerformanceMonitor] at h

/-- C1 (amended): for every monitor state whose metric log is empty and
whose interaction and error counters are zero (a fresh or freshly reset
monitor), summarize reports zero interactions and zero errors, emits no
error_rate entry (consumers reading it with default 0 therefore see an
error rate of exactly 0), and performs no division. -/
theorem summarize_fresh_monitor_zero (pm : PerformanceMonitor)
    (h1 : pm.metrics = []) (h2 : pm.interaction_count = 0) (h3 : pm.error_count = 0) :
    (get_metrics_summary pm).interaction_count = some 0 ∧
    (get_metrics_summary pm).error_count = some 0 ∧
    (get_metrics_summary pm).error_rate = none ∧
    ((get_metrics_summary pm).error_rate).getD 0 = 0 := by
  simp [get_metrics_summary, h1, h2, h3]

/-- Witness for the amended C1 theorem at the initial monitor state. -/
theorem summarize_fresh_monitor_zero_witness :
    (get_metrics_summary initPerformanceMonitor).interaction_count = some 0 ∧
    (get_metrics_summary initPerformanceMonitor).error_count = some 0 ∧
    (get_metrics_summary initPerformanceMonitor).error_rate = none ∧
    ((get_metrics_summary initPerformanceMonitor).error_rate).getD 0 = 0 :=
  summarize_fresh_monitor_zero initPerformanceMonitor rfl rfl rfl

/-- C3: every pipeline invocation, whatever its outcome (response,
no-response, missing stage or raised stage exception), leaves the system
state IDLE. -/
theorem process_audio_ends_idle (core : ReceptionistCore) (frame : AudioFrame) :
    (process_audio core frame).2.1.state = SystemState.IDLE := by
  unfold process_audio
  cases h : runBody core frame with
  | ok x =>
      obtain ⟨resp, c, tr⟩ := x
      rfl
  | error x =>
      obtain ⟨e, c, tr⟩ := x
      rfl

/-- C5: when the activation stage is configured and its detect returns
false, the invocation returns no response, never calls the transcription,
intent-recognition or response-generation stages (the event log holds only
the LISTENING transition, the detect call and the final IDLE reset), and
leaves the performance monitor - both counters included - untouched. -/
theorem activation_false_silent_drop (core : ReceptionistCore) (frame : AudioFrame)
    (engine : ActivationEngine)
    (h1 : core.activation_engine = some engine)
    (h2 : engine.detect frame = .ok false) :
    process_audio core frame =
      (none, { core with state := SystemState.IDLE },
        [PipelineEvent.enteredState SystemState.LISTENING, PipelineEvent.calledDetect,
         PipelineEvent.enteredState SystemState.IDLE]) ∧
    (process_audio core frame).2.1.performance_monitor = core.performance_monitor ∧
    (process_audio core frame).2.1.performance_monitor.interaction_count =
      core.performance_monitor.interaction_count ∧
    (process_audio core frame).2.1.performance_monitor.error_count =
      core.performance_monitor.error_count := by
  have hp := process_audio_of_runBody_ok core frame none _ _
    (runBody_activation_false core frame engine h1 h2)
  refine ⟨?_, ?_, ?_, ?_⟩ <;> (rw [hp]; try rfl)

/-- Witness for the C5 theorem: a core whose engine does not detect. -/
theorem activation_false_silent_drop_witness :
    process_audio { sampleCore with activation_engine := some noDetectEngine } sampleFrame =
      (none,
        { { sampleCore with activation_engine := some noDetectEngine } with
            state := SystemState.IDLE },
        [PipelineEvent.enteredState SystemState.LISTENING, PipelineEvent.calledDetect,
         PipelineEvent.enteredState SystemState.IDLE]) :=
  (activation_false_silent_drop
    { sampleCore with activation_engine := some noDetectEngine }
    sampleFrame noDetectEngine rfl rfl).1

/-- C6: with no transcription stage configured (and activation, when
configured, detecting), an invocation returns no response, ends IDLE, and
bumps the interaction and error counters by exactly one (the final monitor
is exactly record_interaction(success=False) applied once). -/
theorem missing_stt_failed_interaction (core : ReceptionistCore) (frame : AudioFrame)
    (hstt : core.stt_processor = none)
    (hact : ∀ engine, core.activation_engine = some engine →
      engine.detect frame = .ok true) :
    (process_audio core frame).1 = none ∧
    (process_audio core frame).2.1.state = SystemState.IDLE ∧
    (process_audio core frame).2.1.performance_monitor =
      record_interaction core.performance_monitor false ∧
    (process_audio core frame).2.1.performance_monitor.interaction_count =
      core.performance_monitor.interaction_count + 1 ∧
    (process_audio core frame).2.1.performance_monitor.error_count =
      core.performance_monitor.error_count + 1 := by
  have hb := runBody_activation_passes core frame hact
  have hstt' :
      ({ core with state := SystemState.LISTENING } : ReceptionistCore).stt_processor
        = none := hstt
  rw [runAfterActivation_no_stt _ frame _ hstt'] at hb
  have hp := process_audio_of_runBody_ok core frame none _ _ hb
  rw [hp]
  refine ⟨rfl, rfl, rfl, ?_, ?_⟩ <;> simp [record_interaction]

/-- Witness for the C6 theorem: activation configured and detecting, no
transcription stage. -/
theorem missing_stt_failed_interaction_witness :
    (process_audio coreMissingStt sampleFrame).1 = none ∧
    (process_audio coreMissingStt sampleFrame).2.1.state = SystemState.IDLE ∧
    (process_audio coreMissingStt sampleFrame).2.1.performance_monitor =
      record_interaction coreMissingStt.performance_monitor false ∧
    (process_audio coreMissingStt sampleFrame).2.1.performance_monitor.interaction_count =
      coreMissingStt.performance_monitor.interaction_count + 1 ∧
    (process_audio coreMissingStt sampleFrame).2.1.performance_monitor.error_count =
      coreMissingStt.performance_monitor.error_count + 1 :=
  missing_stt_failed_interaction coreMissingStt sampleFrame rfl
    (fun engine h => by
      injection h with h'
      subst h'
      rfl)

/-- C10: each of the four stage-configuration setters catches a raised
initialize exception, returns false and leaves the core - in particular the
previously configured stage for that role - unchanged; the pure return type
of the embedding shows no exception propagates. -/
theorem setters_catch_init_exceptions :
    (∀ core engine e, engine.init = .error e →
        set_activation_engine core engine = (core, false)) ∧
    (∀ core processor e, processor.init = .error e →
        set_stt_processor core processor = (core, false)) ∧
    (∀ core recognizer e, recognizer.init = .error e →
        set_intent_recognizer core recognizer = (core, false)) ∧
    (∀ core generator e, generator.init = .error e →
        set_response_generator core generator = (core, false)) := by
  refine ⟨?_, ?_, ?_, ?_⟩ <;>
    intro core x e h <;>
    simp [set_activation_engine, set_stt_processor, set_intent_recognizer,
      set_response_generator, h]

/-- Witness for the C10 theorem: all four setters on stages whose
initialize raises. -/
theorem setters_catch_init_exceptions_witness :
    set_activation_engine initReceptionistCore failingEngine =
      (initReceptionistCore, false) ∧
    set_stt_processor initReceptionistCore failingStt = (initReceptionistCore, false) ∧
    set_intent_recognizer initReceptionistCore failingRecognizer =
      (initReceptionistCore, false) ∧
    set_response_generator initReceptionistCore failingGenerator =
      (initReceptionistCore, false) :=
  ⟨setters_catch_init_exceptions.1 initReceptionistCore failingEngine "boom" rfl,
   setters_catch_init_exceptions.2.1 initReceptionistCore failingStt "boom" rfl,
   setters_catch_init_exceptions.2.2.1 initReceptionistCore failingRecognizer "boom" rfl,
   setters_catch_init_exceptions.2.2.2 initReceptionistCore failingGenerator "boom" rfl⟩

/-- C8: register_module stores the module under the name (overwriting any
prior binding, other bindings untouched, active pointer untouched) and
returns success exactly when initialize() returns True; on a False return
or a raised exception it returns failure with the manager unchanged.
switch_module to an unregistered name fails and leaves the previously
active module active; to a registered name it makes that name the sole
active module. -/
theorem register_and_switch_semantics :
    (∀ mm name module, module.init = .ok true →
        (register_module mm name module).2 = true ∧
        (register_module mm name module).1.active_module = mm.active_module ∧
        lookupKey (register_module mm name module).1.modules name = some module ∧
        ∀ k, k ≠ name →
          lookupKey (register_module mm name module).1.modules k =
            lookupKey mm.modules k) ∧
    (∀ mm name module, module.init ≠ .ok true →
        register_module mm name module = (mm, false)) ∧
    (∀ mm name, containsKey mm.modules name = false →
        switch_module mm name = (mm, false)) ∧
    (∀ mm name, containsKey mm.modules name = true →
        switch_module mm name = ({ mm with active_module := some name }, true)) := by
  refine ⟨?_, ?_, ?_, ?_⟩
  · intro mm name module h
    refine ⟨?_, ?_, ?_, ?_⟩
    · simp [register_module, h]
    · simp [register_module, h]
    · simp [register_module, h, lookupKey_dictInsert]
    · intro k hk
      simp only [register_module, h]
      rw [lookupKey_dictInsert, if_neg (fun hh => hk hh.symm)]
  · intro mm name module h
    match hi : module.init with
    | .ok true => exact absurd hi h
    | .ok false => simp [register_module, hi]
    | .error e => simp [register_module, hi]
  · intro mm name h
    simp [switch_module, h]
  · intro mm name h
    simp [switch_module, h]

/-- Witness for the C8 theorem: a successful registration, an overwriting
re-registration and a failing switch on concrete managers. -/
theorem register_and_switch_semantics_witness :
    (register_module initModuleManager "sample" sampleModule).2 = true ∧
    lookupKey (register_module initModuleManager "sample" sampleModule).1.modules
      "sample" = some sampleModule ∧
    switch_module initModuleManager "ghost" = (initModuleManager, false) ∧
    switch_module sampleManager "sample" =
      ({ sampleManager with active_module := some "sample" }, true) :=
  ⟨(register_and_switch_semantics.1 initModuleManager "sample" sampleModule rfl).1,
   (register_and_switch_semantics.1 initModuleManager "sample" sampleModule rfl).2.2.1,
   register_and_switch_semantics.2.2.1 initModuleManager "ghost" rfl,
   register_and_switch_semantics.2.2.2 sampleManager "sample" rfl⟩

/-- C9 counterexample: with the empty string used as a (registered) domain
name, switching to it sets the active-module pointer, yet
get_active_module returns none, because the Python truthiness guard
`if self.active_module and ...` treats the empty string as falsy.  So the
pointer being set does not suffice for get_active_module to return a
module. -/
theorem active_pointer_empty_name_counterexample :
    ((switch_module (register_module initModuleManager "" sampleModule).1 "").1).active_module
      = some "" ∧
    get_active_module ((switch_module (register_module initModuleManager "" sampleModule).1 "").1)
      = none :=
  ⟨rfl, rfl⟩

/-- C9 (amended): the invariant - the active-module pointer is unset or
names a registered module - holds initially and is preserved by
register_module, switch_module and cleanup_all (process_with_module only
reads the manager: in this embedding it returns no updated manager at
all); and under the invariant get_active_module returns a module exactly
when the pointer is set to a NONEMPTY name (for the empty name the
truthiness guard yields none), so dispatch never fails on a dangling
active name. -/
theorem registry_active_invariant :
    activeRegistered initModuleManager ∧
    (∀ mm name module, activeRegistered mm →
        activeRegistered (register_module mm name module).1) ∧
    (∀ mm name, activeRegistered mm → activeRegistered (switch_module mm name).1) ∧
    (∀ mm, activeRegistered (cleanup_all mm)) ∧
    (∀ mm, activeRegistered mm →
        ((get_active_module mm).isSome = true ↔
          ∃ s, mm.active_module = some s ∧ s ≠ "")) := by
  refine ⟨?_, ?_, ?_, ?_, ?_⟩
  · intro s h
    simp [initModuleManager] at h
  · intro mm name module hinv s hs
    match hi : module.init with
    | .ok true =>
        simp only [register_module, hi] at hs ⊢
        have hc := hinv s hs
        simp only [containsKey, lookupKey_dictInsert, Option.isSome] at hc ⊢
        by_cases hk : name = s
        · simp [hk]
        · simpa [hk] using hc
    | .ok false =>
        simp only [register_module, hi] at hs ⊢
        exact hinv s hs
    | .error e =>
        simp only [register_module, hi] at hs ⊢
        exact hinv s hs
  · intro mm name hinv s hs
    by_cases hc : containsKey mm.modules name = true
    · simp only [switch_module, if_pos hc] at hs ⊢
      injection hs with hs'
      subst hs'
      exact hc
    · simp only [switch_module, if_neg hc] at hs ⊢
      exact hinv s hs
  · intro mm s hs
    simp [cleanup_all] at hs
  · intro mm hinv
    match ha : mm.active_module with
    | none => simp [get_active_module, ha]
    | some s =>
        by_cases hs : s = ""
        · subst hs
          simp [get_active_module, ha]
        · have hc := hinv s ha
          simp only [get_active_module, ha, hc, Bool.and_true]
          constructor
          · intro _
            exact ⟨s, rfl, hs⟩
          · intro _
            simp only [containsKey] at hc
            simpa [hs] using hc

/-- Witness for the amended C9 theorem: the invariant transports across a
concrete register-then-switch sequence, and for the sample manager the
active pointer holds a nonempty name so a module is returned. -/
theorem registry_active_invariant_witness :
    activeRegistered (switch_module (register_module initModuleManager "sample"
      sampleModule).1 "sample").1 ∧
    ((get_active_module sampleManager).isSome = true ↔
      ∃ s, sampleManager.active_module = some s ∧ s ≠ "") :=
  ⟨registry_active_invariant.2.2.1 _ "sample"
      (registry_active_invariant.2.1 initModuleManager "sample" sampleModule
        registry_active_invariant.1),
   registry_active_invariant.2.2.2.2 sampleManager
      (fun s hs => by
        injection hs with hs'
        subst hs'
        rfl)⟩

/-- C7: process_with_module returns the active module's handle result
exactly when an active module exists and its supports_intent is true, and
returns nothing when there is no active module or the intent is not
supported; consequently a pipeline run whose active module supports the
recognized intent returns the module's response for EVERY configured
fallback generator (the generator is unconstrained below) and never calls
the generator. -/
theorem dispatch_and_fallback_semantics :
    (∀ mm intent_result module, get_active_module mm = some module →
        module.supports_intent intent_result.intent = true →
        process_with_module mm intent_result =
          (module.handle intent_result).map some) ∧
    (∀ mm intent_result, get_active_module mm = none →
        process_with_module mm intent_result = .ok none) ∧
    (∀ mm intent_result module, get_active_module mm = some module →
        module.supports_intent intent_result.intent = false →
        process_with_module mm intent_result = .ok none) ∧
    (∀ core frame stt t recognizer intent_result module response,
        (∀ engine, core.activation_engine = some engine →
          engine.detect frame = .ok true) →
        core.stt_processor = some stt →
        stt.transcribe frame.data frame.sample_rate = .ok t →
        core.intent_recognizer = some recognizer →
        recognizer.recognize t.text = .ok intent_result →
        get_active_module core.module_manager = some module →
        module.supports_intent intent_result.intent = true →
        module.handle intent_result = .ok response →
        (process_audio core frame).1 = some response ∧
        PipelineEvent.calledGenerate ∉ (process_audio core frame).2.2) := by
  refine ⟨?_, ?_, ?_, ?_⟩
  · intro mm ir module h1 h2
    cases hh : module.handle ir with
    | ok r => simp [process_with_module, h1, h2, hh, Except.map]
    | error e => simp [process_with_module, h1, h2, hh, Except.map]
  · intro mm ir h
    simp [process_with_module, h]
  · intro mm ir module h1 h2
    simp [process_with_module, h1, h2]
  · intro core frame stt t recognizer ir module response
    intro hact hstt htr hrec hrek hactive hsup hh
    have hd : process_with_module core.module_manager ir = .ok (some response) := by
      simp [process_with_module, hactive, hsup, hh]
    cases ha : core.activation_engine with
    | none =>
        refine ⟨?_, ?_⟩ <;>
          simp [process_audio, runBody, runAfterActivation, runIntent, runRespond,
            finishResponse, ha, hstt, htr, hrec, hrek, hd]
    | some engine =>
        have hdet := hact engine ha
        refine ⟨?_, ?_⟩ <;>
          simp [process_audio, runBody, runAfterActivation, runIntent, runRespond,
            finishResponse, ha, hdet, hstt, htr, hrec, hrek, hd]

/-- Witness for the C7 theorem: the fully configured sample core, whose
active module supports the intent while a fallback generator is also
configured, answers with the module's response. -/
theorem dispatch_and_fallback_semantics_witness :
    (process_audio sampleCore sampleFrame).1 = some sampleResponse ∧
    PipelineEvent.calledGenerate ∉ (process_audio sampleCore sampleFrame).2.2 :=
  dispatch_and_fallback_semantics.2.2.2 sampleCore sampleFrame sampleStt
    sampleTranscribed sampleRecognizer sampleIntent sampleModule sampleResponse
    (fun _ h => Option.noConfusion h) rfl rfl rfl rfl rfl rfl rfl

/-- C4: when any configured stage raises during an invocation - the
activation engine's detect, the transcription call, the intent-recognition
call, the dispatched domain module's handle, or the fallback generator's
generate - the invocation propagates nothing: it returns no response,
records exactly one failed interaction (both counters up by one), passes
through the ERROR state and ends with the state reset to IDLE. -/
theorem stage_exception_firewall (core : ReceptionistCore) (frame : AudioFrame) (e : Exn)
    (h : (∃ engine, core.activation_engine = some engine ∧
            engine.detect frame = .error e) ∨
         ((∀ engine, core.activation_engine = some engine →
             engine.detect frame = .ok true) ∧
          ((∃ stt, core.stt_processor = some stt ∧
              stt.transcribe frame.data frame.sample_rate = .error e) ∨
           (∃ stt t, core.stt_processor = some stt ∧
              stt.transcribe frame.data frame.sample_rate = .ok t ∧
              ((∃ recognizer, core.intent_recognizer = some recognizer ∧
                  recognizer.recognize t.text = .error e) ∨
               (∃ recognizer intent_result,
                  core.intent_recognizer = some recognizer ∧
                  recognizer.recognize t.text = .ok intent_result ∧
                  ((∃ module,
                      get_active_module core.module_manager = some module ∧
                      module.supports_intent intent_result.intent = true ∧
                      module.handle intent_result = .error e) ∨
                   (∃ generator,
                      process_with_module core.module_manager intent_result = .ok none ∧
                      core.response_generator = some generator ∧
                      generator.generate intent_result = .error e)))))))) :
    (process_audio core frame).1 = none ∧
    (process_audio core frame).2.1.state = SystemState.IDLE ∧
    (process_audio core frame).2.1.performance_monitor.interaction_count =
      core.performance_monitor.interaction_count + 1 ∧
    (process_audio core frame).2.1.performance_monitor.error_count =
      core.performance_monitor.error_count + 1 ∧
    PipelineEvent.enteredState SystemState.ERROR ∈ (process_audio core frame).2.2 := by
  rcases h with ⟨engine, h1, h2⟩ | ⟨hact, hrest⟩
  · refine ⟨?_, ?_, ?_, ?_, ?_⟩ <;>
      simp [process_audio, runBody, h1, h2, record_interaction]
  · rcases hrest with ⟨stt, h1, h2⟩ | ⟨stt, t, h1, h2, hrest⟩
    · cases ha : core.activation_engine with
      | none =>
          refine ⟨?_, ?_, ?_, ?_, ?_⟩ <;>
            simp [process_audio, runBody, runAfterActivation, ha, h1, h2,
              record_interaction]
      | some engine =>
          have hdet := hact engine ha
          refine ⟨?_, ?_, ?_, ?_, ?_⟩ <;>
            simp [process_audio, runBody, runAfterActivation, ha, hdet, h1, h2,
              record_interaction]
    · rcases hrest with ⟨recognizer, h3, h4⟩ | ⟨recognizer, ir, h3, h4, hrest⟩
      · cases ha : core.activation_engine with
        | none =>
            refine ⟨?_, ?_, ?_, ?_, ?_⟩ <;>
              simp [process_audio, runBody, runAfterActivation, runIntent, ha, h1, h2,
                h3, h4, record_interaction, record_metric]
        | some engine =>
            have hdet := hact engine ha
            refine ⟨?_, ?_, ?_, ?_, ?_⟩ <;>
              simp [process_audio, runBody, runAfterActivation, runIntent, ha, hdet,
                h1, h2, h3, h4, record_interaction, record_metric]
      · have hd : process_with_module core.module_manager ir = .error e ∨
            (process_with_module core.module_manager ir = .ok none ∧
             ∃ generator, core.response_generator = some generator ∧
               generator.generate ir = .error e) := by
          rcases hrest with ⟨module, h5, h6, h7⟩ | ⟨generator, h5, h6, h7⟩
          · left
            simp [process_with_module, h5, h6, h7]
          · right
            exact ⟨h5, generator, h6, h7⟩
        rcases hd with hd | ⟨hd, generator, h5, h6⟩
        · cases ha : core.activation_engine with
          | none =>
              refine ⟨?_, ?_, ?_, ?_, ?_⟩ <;>
                simp [process_audio, runBody, runAfterActivation, runIntent,
                  runRespond, ha, h1, h2, h3, h4, hd, record_interaction,
                  record_metric]
          | some engine =>
              have hdet := hact engine ha
              refine ⟨?_, ?_, ?_, ?_, ?_⟩ <;>
                simp [process_audio, runBody, runAfterActivation, runIntent,
                  runRespond, ha, hdet, h1, h2, h3, h4, hd, record_interaction,
                  record_metric]
        · cases ha : core.activation_engine with
          | none =>
              refine ⟨?_, ?_, ?_, ?_, ?_⟩ <;>
                simp [process_audio, runBody, runAfterActivation, runIntent,
                  runRespond, ha, h1, h2, h3, h4, hd, h5, h6, record_interaction,
                  record_metric]
          | some engine =>
              have hdet := hact engine ha
              refine ⟨?_, ?_, ?_, ?_, ?_⟩ <;>
                simp [process_audio, runBody, runAfterActivation, runIntent,
                  runRespond, ha, hdet, h1, h2, h3, h4, hd, h5, h6,
                  record_interaction, record_metric]

/-- Witness for the C4 theorem: a core whose activation engine's detect
raises; the invocation yields no response, one failed interaction, a pass
through ERROR and a final IDLE state. -/
theorem stage_exception_firewall_witness :
    (process_audio { sampleCore with activation_engine := some detectRaisesEngine }
        sampleFrame).1 = none ∧
    (process_audio { sampleCore with activation_engine := some detectRaisesEngine }
        sampleFrame).2.1.state = SystemState.IDLE ∧
    (process_audio { sampleCore with activation_engine := some detectRaisesEngine }
        sampleFrame).2.1.performance_monitor.interaction_count =
      ({ sampleCore with activation_engine := some detectRaisesEngine } :
        ReceptionistCore).performance_monitor.interaction_count + 1 ∧
    (process_audio { sampleCore with activation_engine := some detectRaisesEngine }
        sampleFrame).2.1.performance_monitor.error_count =
      ({ sampleCore with activation_engine := some detectRaisesEngine } :
        ReceptionistCore).performance_monitor.error_count + 1 ∧
    PipelineEvent.enteredState SystemState.ERROR ∈
      (process_audio { sampleCore with activation_engine := some detectRaisesEngine }
        sampleFrame).2.2 :=
  stage_exception_firewall
    { sampleCore with activation_engine := some detectRaisesEngine }
    sampleFrame "boom" (Or.inl ⟨detectRaisesEngine, rfl, rfl⟩)

/-! ## Generic lemmas about the recommendation-list shape -/

theorem mem_triage_first {A B C : Prop} [Decidable A] [Decidable B] [Decidable C]
    {a b c w : String} (hab : a ≠ b) (hac : a ≠ c) (haw : a ≠ w) :
    (a ∈ (if ((if A then [a] else []) ++ (if B then [b] else []) ++
              (if C then [c] else [])) = []
          then [w]
          else ((if A then [a] else []) ++ (if B then [b] else []) ++
                (if C then [c] else [])))) ↔ A := by
  by_cases hA : A <;> by_cases hB : B <;> by_cases hC : C <;>
    simp [hA, hB, hC, hab, hac, haw]

theorem mem_triage_second {A B C : Prop} [Decidable A] [Decidable B] [Decidable C]
    {a b c w : String} (hba : b ≠ a) (hbc : b ≠ c) (hbw : b ≠ w) :
    (b ∈ (if ((if A then [a] else []) ++ (if B then [b] else []) ++
              (if C then [c] else [])) = []
          then [w]
          else ((if A then [a] else []) ++ (if B then [b] else []) ++
                (if C then [c] else [])))) ↔ B := by
  by_cases hA : A <;> by_cases hB : B <;> by_cases hC : C <;>
    simp [hA, hB, hC, hba, hbc, hbw]

theorem mem_triage_third {A B C : Prop} [Decidable A] [Decidable B] [Decidable C]
    {a b c w : String} (hca : c ≠ a) (hcb : c ≠ b) (hcw : c ≠ w) :
    (c ∈ (if ((if A then [a] else []) ++ (if B then [b] else []) ++
              (if C then [c] else [])) = []
          then [w]
          else ((if A then [a] else []) ++ (if B then [b] else []) ++
                (if C then [c] else [])))) ↔ C := by
  by_cases hA : A <;> by_cases hB : B <;> by_cases hC : C <;>
    simp [hA, hB, hC, hca, hcb, hcw]

theorem triage_eq_default {A B C : Prop} [Decidable A] [Decidable B] [Decidable C]
    {a b c w : String} (haw : a ≠ w) (hbw : b ≠ w) (hcw : c ≠ w) :
    ((if ((if A then [a] else []) ++ (if B then [b] else []) ++
          (if C then [c] else [])) = []
      then [w]
      else ((if A then [a] else []) ++ (if B then [b] else []) ++
            (if C then [c] else []))) = [w]) ↔ (¬A ∧ ¬B ∧ ¬C) := by
  by_cases hA : A <;> by_cases hB : B <;> by_cases hC : C <;>
    simp [hA, hB, hC, haw, hbw, hcw]

theorem feedback_recommendations_eq (pm : PerformanceMonitor) (hm : ¬pm.metrics = []) :
    (get_feedback_report pm).recommendations =
      (if ((if pm.metrics ≠ [] ∧ 0 < pm.interaction_count ∧
                (1 : ℚ) / 10 < (pm.error_count : ℚ) / (pm.interaction_count : ℚ)
            then [highErrorRec] else []) ++
           (if valuesFor pm.metrics "intent_recognizer.confidence" ≠ [] ∧
                (valuesFor pm.metrics "intent_recognizer.confidence").sum /
                  ((valuesFor pm.metrics "intent_recognizer.confidence").length : ℚ) < 7 / 10
            then [lowIntentRec] else []) ++
           (if valuesFor pm.metrics "stt.confidence" ≠ [] ∧
                (valuesFor pm.metrics "stt.confidence").sum /
                  ((valuesFor pm.metrics "stt.confidence").length : ℚ) < 8 / 10
            then [lowSttRec] else [])) = []
       then [performingWellRec]
       else ((if pm.metrics ≠ [] ∧ 0 < pm.interaction_count ∧
                  (1 : ℚ) / 10 < (pm.error_count : ℚ) / (pm.interaction_count : ℚ)
              then [highErrorRec] else []) ++
             (if valuesFor pm.metrics "intent_recognizer.confidence" ≠ [] ∧
                  (valuesFor pm.metrics "intent_recognizer.confidence").sum /
                    ((valuesFor pm.metrics "intent_recognizer.confidence").length : ℚ) < 7 / 10
              then [lowIntentRec] else []) ++
             (if valuesFor pm.metrics "stt.confidence" ≠ [] ∧
                  (valuesFor pm.metrics "stt.confidence").sum /
                    ((valuesFor pm.metrics "stt.confidence").length : ℚ) < 8 / 10
              then [lowSttRec] else []))) := by
  have herr : (get_metrics_summary pm).error_rate =
      some (if 0 < pm.interaction_count then
        (pm.error_count : ℚ) / (pm.interaction_count : ℚ) else 0) := by
    simp [get_metrics_summary, hm]
  have hBl := statistics_lookup pm "intent_recognizer.confidence" hm
  have hCl := statistics_lookup pm "stt.confidence" hm
  have h010 : ¬((1 : ℚ) / 10 < 0) := by norm_num
  by_cases hic : 0 < pm.interaction_count <;>
  by_cases hA : (1 : ℚ) / 10 < (pm.error_count : ℚ) / (pm.interaction_count : ℚ) <;>
  by_cases hBv : valuesFor pm.metrics "intent_recognizer.confidence" = [] <;>
  by_cases hBa : (valuesFor pm.metrics "intent_recognizer.confidence").sum /
      ((valuesFor pm.metrics "intent_recognizer.confidence").length : ℚ) < 7 / 10 <;>
  by_cases hCv : valuesFor pm.metrics "stt.confidence" = [] <;>
  by_cases hCa : (valuesFor pm.metrics "stt.confidence").sum /
      ((valuesFor pm.metrics "stt.confidence").length : ℚ) < 8 / 10 <;>
  simp [get_feedback_report, herr, hBl, hCl, mkStats, hm, hic, hA, hBv, hBa, hCv,
    hCa, h010]

/-- C2 counterexample: five interactions (one failed) with an empty metric
log give a session error rate of 1/5, which exceeds the 0.10 threshold, yet
the feedback report omits the high-error-rate recommendation and contains
exactly the performing-well recommendation: with no metrics recorded the
summary carries no error_rate entry, so the report reads it as 0. -/
theorem feedback_empty_log_counterexample :
    (record_interaction (record_interaction (record_interaction (record_interaction
        (record_interaction initPerformanceMonitor true) true) true) true)
        false).metrics = [] ∧
    (1 : ℚ) / 10 <
      ((record_interaction (record_interaction (record_interaction (record_interaction
          (record_interaction initPerformanceMonitor true) true) true) true)
          false).error_count : ℚ) /
      ((record_interaction (record_interaction (record_interaction (record_interaction
          (record_interaction initPerformanceMonitor true) true) true) true)
          false).interaction_count : ℚ) ∧
    highErrorRec ∉ (get_feedback_report (record_interaction (record_interaction
        (record_interaction (record_interaction (record_interaction
        initPerformanceMonitor true) true) true) true) false)).recommendations ∧
    (get_feedback_report (record_interaction (record_interaction (record_interaction
        (record_interaction (record_interaction initPerformanceMonitor true) true)
        true) true) false)).recommendations = [performingWellRec] := by
  have hm : (record_interaction (record_interaction (record_interaction
      (record_interaction (record_interaction initPerformanceMonitor true) true)
      true) true) false).metrics = [] := rfl
  have h010 : ¬((1 : ℚ) / 10 < 0) := by norm_num
  have hrecs : (get_feedback_report (record_interaction (record_interaction
      (record_interaction (record_interaction (record_interaction
      initPerformanceMonitor true) true) true) true) false)).recommendations
      = [performingWellRec] := by
    simp [get_feedback_report, get_metrics_summary, hm, lookupKey, h010]
  refine ⟨rfl, ?_, ?_, ?_⟩
  · show (1 : ℚ) / 10 < ((1 : Nat) : ℚ) / ((5 : Nat) : ℚ)
    norm_num
  · rw [hrecs]
    decide
  · exact hrecs

/-- C2 (amended): the feedback report includes the high-error-rate
recommendation exactly when at least one metric has been recorded, at
least one interaction has been recorded and error_count/interaction_count
exceeds 0.10 (on an empty metric log the summary carries no error_rate
entry and the report reads it as 0, so the recommendation is skipped
whatever the counters say); it includes the NLU-retraining recommendation
exactly when intent_recognizer.confidence metrics were recorded with
average below 0.70, the STT-tuning recommendation exactly when
stt.confidence metrics were recorded with average below 0.80, and it is
exactly the single performing-well recommendation when none of the three
conditions holds. -/
theorem feedback_recommendations_characterization (pm : PerformanceMonitor) :
    (highErrorRec ∈ (get_feedback_report pm).recommendations ↔
      (pm.metrics ≠ [] ∧ 0 < pm.interaction_count ∧
        (1 : ℚ) / 10 < (pm.error_count : ℚ) / (pm.interaction_count : ℚ))) ∧
    (lowIntentRec ∈ (get_feedback_report pm).recommendations ↔
      (valuesFor pm.metrics "intent_recognizer.confidence" ≠ [] ∧
        (valuesFor pm.metrics "intent_recognizer.confidence").sum /
          ((valuesFor pm.metrics "intent_recognizer.confidence").length : ℚ) < 7 / 10)) ∧
    (lowSttRec ∈ (get_feedback_report pm).recommendations ↔
      (valuesFor pm.metrics "stt.confidence" ≠ [] ∧
        (valuesFor pm.metrics "stt.confidence").sum /
          ((valuesFor pm.metrics "stt.confidence").length : ℚ) < 8 / 10)) ∧
    ((get_feedback_report pm).recommendations = [performingWellRec] ↔
      (¬(pm.metrics ≠ [] ∧ 0 < pm.interaction_count ∧
          (1 : ℚ) / 10 < (pm.error_count : ℚ) / (pm.interaction_count : ℚ)) ∧
       ¬(valuesFor pm.metrics "intent_recognizer.confidence" ≠ [] ∧
          (valuesFor pm.metrics "intent_recognizer.confidence").sum /
            ((valuesFor pm.metrics "intent_recognizer.confidence").length : ℚ) < 7 / 10) ∧
       ¬(valuesFor pm.metrics "stt.confidence" ≠ [] ∧
          (valuesFor pm.metrics "stt.confidence").sum /
            ((valuesFor pm.metrics "stt.confidence").length : ℚ) < 8 / 10))) := by
  by_cases hm : pm.metrics = []
  · have h010 : ¬((1 : ℚ) / 10 < 0) := by norm_num
    have hrecs : (get_feedback_report pm).recommendations = [performingWellRec] := by
      simp [get_feedback_report, get_metrics_summary, hm, lookupKey, h010]
    have hvB : valuesFor pm.metrics "intent_recognizer.confidence" = [] := by
      rw [hm]
      rfl
    have hvC : valuesFor pm.metrics "stt.confidence" = [] := by
      rw [hm]
      rfl
    rw [hrecs]
    refine ⟨?_, ?_, ?_, ?_⟩
    · exact iff_of_false (by decide) (fun h => h.1 hm)
    · exact iff_of_false (by decide) (fun h => h.1 hvB)
    · exact iff_of_false (by decide) (fun h => h.1 hvC)
    · exact iff_of_true rfl ⟨fun h => h.1 hm, fun h => h.1 hvB, fun h => h.1 hvC⟩
  · rw [feedback_recommendations_eq pm hm]
    refine ⟨?_, ?_, ?_, ?_⟩
    · exact mem_triage_first (by decide) (by decide) (by decide)
    · exact mem_triage_second (by decide) (by decide) (by decide)
    · exact mem_triage_third (by decide) (by decide) (by decide)
    · exact triage_eq_default (by decide) (by decide) (by decide)
